import Mathlib

/-!
# Verification of the yext/teamcity client library

A shallow embedding of the `locate` locator builder, the `teamcity` data
model (properties, triggers, times), and the request-construction and
response-decoding logic of the API client, together with theorems settling
the specification's claims about them.
-/

set_option autoImplicit false
set_option linter.dupNamespace false

namespace Teamcity

/-! ## Locator builder (package `locate`) -/

/-- `Locator` is a key, value used to locate various TeamCity entities. -/
structure Locator where
  key : String
  value : String
deriving Repr, DecidableEq

/-- `String()` converts the locator to a string in the form `key:value`. -/
def Locator.String (l : Locator) := l.key ++ ":" ++ l.value

/-- `ById` gets the Locator for locating by id. -/
def ById (id : String) : Locator := { key := "id", value := id }

/-- `ByName` gets the Locator for locating by name. -/
def ByName (name : String) : Locator := { key := "name", value := name }

/-- `ByVersion` gets the Locator for locating a Change by version. -/
def ByVersion (version : String) : Locator := { key := "version", value := version }

/-- `ByBuildType` gets the Locator for locating by build type locator;
`fmt.Sprintf("(%v)", l.String())` wraps the inner string in parentheses. -/
def ByBuildType (l : Locator) : Locator :=
  { key := "buildType", value := "(" ++ l.String ++ ")" }

/-- `ByAffectedProject` gets the Locator for locating by affected project locator. -/
def ByAffectedProject (l : Locator) : Locator :=
  { key := "affectedProject", value := "(" ++ l.String ++ ")" }

/-- `ByProject` gets the Locator for locating by project locator. -/
def ByProject (l : Locator) : Locator :=
  { key := "project", value := "(" ++ l.String ++ ")" }

/-- `ByIncludeInitial` gets the Locator for locating by includeInitial;
`fmt.Sprintf("%v", b)` renders a Go bool as `true`/`false`. -/
def ByIncludeInitial (b : Bool) : Locator :=
  { key := "includeInitial", value := if b then "true" else "false" }

/-- `ByTo` gets the Locator for locating by to locator. -/
def ByTo (l : Locator) : Locator :=
  { key := "to", value := "(" ++ l.String ++ ")" }

/-- Models the Go byte slice `v[:len(v)-1]`: dropping the final byte of `v`.
Here it is only applied to strings ending in the one-byte character `,`,
where dropping the final byte coincides with dropping the final character. -/
def goDropLastByte (v : String) : String := ⟨v.data.dropLast⟩

/-- `BySnapshotDependency` gets the Locator for locating by snapshotDependency.
The Go code appends `l.String() + ","` for each inner locator into `v` and then
takes `v[:len(v)-1]`; when `locators` is empty `v` is `""` and the slice
expression `v[:len(v)-1]` is out of range, so the Go runtime panics. The panic
is modelled as `none`; `some` is the locator the call returns. -/
def BySnapshotDependency (locators : List Locator) : Option Locator :=
  let v := locators.foldl (fun acc l => acc ++ l.String ++ ",") ""
  if v = "" then none
  else some { key := "snapshotDependency", value := "(" ++ goDropLastByte v ++ ")" }

/-- Comma-joining of strings as the specification describes it: the elements
separated by single commas, with no leading or trailing comma. -/
def joinComma : List String → String
  | [] => ""
  | [x] => x
  | x :: y :: xs => x ++ "," ++ joinComma (y :: xs)

/-- The concatenation `v` accumulated by `BySnapshotDependency`'s loop,
written as a recursive function: every element's string form followed by a comma. -/
def concatCommas : List Locator → String
  | [] => ""
  | l :: ls => l.String ++ "," ++ concatCommas ls

/-! ## Properties and parameters (`teamcity` package) -/

/-- `Property` is a characteristic of a project or build configuration. -/
structure Property where
  Name : String
  Value : String
  Own : Bool
deriving Repr, DecidableEq

/-- The zero value of `Property`, which Go returns for a missing lookup. -/
def emptyProperty : Property := { Name := "", Value := "", Own := false }

/-- `Params` is a container for the various properties of a project or build
configuration. -/
structure Params where
  Properties : List Property
deriving Repr, DecidableEq

/-- The `for ... range` loop of `Params.PropertyFromName`: return the first
property whose name equals the target, or the zero-valued `Property`. -/
def propertyLoop (target : String) : List Property → Property
  | [] => emptyProperty
  | p :: ps => if p.Name = target then p else propertyLoop target ps

/-- `PropertyFromName` returns the Property of the given Params with the given
target name if it exists, and Go's zero-valued `Property` otherwise. -/
def Params.PropertyFromName (params : Params) (target : String) : Property :=
  propertyLoop target params.Properties

/-- `Project` is an individual project configured in TeamCity. The
`ParentProject *Project` field makes the Go struct self-referential, hence an
inductive type; `none` models a nil pointer. -/
inductive Project where
  | mk (Id Name WebUrl : String) (Params : Params) (ParentProjectId : String)
       (ParentProject : Option Project) (Archived : Bool)

/-- The `Params` field of a `Project`. -/
def Project.Params : Project → Params
  | .mk _ _ _ ps _ _ _ => ps

/-- `PropertyFromName` returns the Property of the given Project with the given
target name if it exists; it delegates to `Params.PropertyFromName`. -/
def Project.PropertyFromName (project : Project) (target : String) : Property :=
  project.Params.PropertyFromName target

/-! ## PropertyList and boolean parsing (from `build.go`) -/

/-- `PropertyList` is a list of name-value attributes describing some entity. -/
structure PropertyList where
  Count : Nat
  Properties : List Property
deriving Repr, DecidableEq

/-- `NewPropertyList` builds a `PropertyList` from the entries of a Go map.
Go map iteration order is unspecified; the model receives the entries as an
association list in some order. -/
def NewPropertyList (m : List (String × String)) : PropertyList :=
  let props := m.map (fun kv => { Name := kv.1, Value := kv.2, Own := false : Property })
  { Count := props.length, Properties := props }

/-- The `for ... range` loop of `PropertyList.Value`: the first matching
property's value, or the empty string. -/
def valueLoop (name : String) : List Property → String
  | [] => ""
  | p :: ps => if p.Name = name then p.Value else valueLoop name ps

/-- `Value` returns the named property's value, or empty string if not found.
The Go receiver is a pointer `*PropertyList`; `none` models a nil receiver,
for which the method returns `""`. -/
def PropertyList.Value (pl : Option PropertyList) (name : String) : String :=
  match pl with
  | none => ""
  | some pl => valueLoop name pl.Properties

/-- `strconv.ParseBool`: accepts 1, t, T, TRUE, true, True, 0, f, F, FALSE,
false, False; anything else is an error, modelled as `none`. -/
def parseBool (s : String) : Option Bool :=
  if s = "1" ∨ s = "t" ∨ s = "T" ∨ s = "TRUE" ∨ s = "true" ∨ s = "True" then some true
  else if s = "0" ∨ s = "f" ∨ s = "F" ∨ s = "FALSE" ∨ s = "false" ∨ s = "False" then some false
  else none

/-- `strconv.FormatBool` returns `"true"` or `"false"`. -/
def formatBool (b : Bool) : String := if b then "true" else "false"

/-- `Bool` returns the named property's boolean value, or false if not found
or not parseable; `none` models a nil receiver. -/
def PropertyList.Bool (pl : Option PropertyList) (name : String) : Bool :=
  if pl.isNone then false
  else
    match parseBool (PropertyList.Value pl name) with
    | none => false
    | some b => b

/-! ## Trigger JSON round trip (trigger source file) -/

/-- `Trigger` represents something that kicks off a build type. -/
structure Trigger where
  Id : String
  DependsOn : String
  AfterSuccessfulBuildOnly : Bool
deriving Repr, DecidableEq

/-- `jsonTrigger` is the wire shape a `Trigger` is marshalled through: an id, a
type tag (the Go field named `Type`, renamed here because `Type` is a Lean
keyword), and a property list (a nil pointer modelled as `none`). -/
structure JsonTrigger where
  Id : String
  TypeTag : String
  PropertyList : Option PropertyList
deriving Repr, DecidableEq

/-- `Trigger.MarshalJSON` serializes through the `jsonTrigger` shape with type
`buildDependencyTrigger` and a property list holding `dependsOn` and
`afterSuccessfulBuildOnly`. The JSON encoding of `jsonTrigger` itself is the
standard struct codec, which round-trips these fields; the model therefore
stops at the `jsonTrigger` value. Go map iteration order is unspecified; the
two keys are distinct, so any order gives the same lookups. -/
def Trigger.MarshalJSON (t : Trigger) : JsonTrigger :=
  { Id := t.Id
    TypeTag := "buildDependencyTrigger"
    PropertyList := some (NewPropertyList
      [("dependsOn", t.DependsOn),
       ("afterSuccessfulBuildOnly", formatBool t.AfterSuccessfulBuildOnly)]) }

/-- `Trigger.UnmarshalJSON` decodes the `jsonTrigger` shape and reads the
`dependsOn` and `afterSuccessfulBuildOnly` properties. -/
def Trigger.UnmarshalJSON (jt : JsonTrigger) : Trigger :=
  { Id := jt.Id
    DependsOn := PropertyList.Value jt.PropertyList "dependsOn"
    AfterSuccessfulBuildOnly := PropertyList.Bool jt.PropertyList "afterSuccessfulBuildOnly" }

/-! ## The TeamCity time format (from `build.go`)

`Time` wraps `time.Time` with the fixed layout `20060102T150405-0700`. The
model keeps the wall-clock fields and the numeric zone offset in minutes,
which is exactly the information that layout carries. -/

/-- The wall-clock fields plus fixed numeric zone offset (in minutes, signed)
carried by the TeamCity date layout `YYYYMMDDThhmmss±hhmm`. -/
structure TcTime where
  year : Nat
  month : Nat
  day : Nat
  hour : Nat
  minute : Nat
  second : Nat
  offset : Int
deriving Repr, DecidableEq

/-- The numeric value of a decimal digit character, or `none`. -/
def digitVal (c : Char) : Option Nat :=
  if c.isDigit then some (c.toNat - 48) else none

/-- Two decimal digit characters as a number. -/
def dig2 (a b : Char) : Option Nat := do
  let x ← digitVal a
  let y ← digitVal b
  pure (x * 10 + y)

/-- Four decimal digit characters as a number. -/
def dig4 (a b c d : Char) : Option Nat := do
  let x ← dig2 a b
  let y ← dig2 c d
  pure (x * 100 + y)

/-- Whether `y` is a leap year, as Go's `time` package computes it. -/
def isLeap (y : Nat) : Bool :=
  y % 4 == 0 && (y % 100 != 0 || y % 400 == 0)

/-- Days in the given month of the given year. -/
def daysIn (y m : Nat) : Nat :=
  if m = 2 then (if isLeap y then 29 else 28)
  else if m = 4 ∨ m = 6 ∨ m = 9 ∨ m = 11 then 30
  else 31

/-- `time.Parse` with the fixed layout `20060102T150405-0700`: twenty
characters, `T` at index 8, a `+` or `-` sign at index 15, and the usual
range checks on month, day, hour, minute and second. `none` models the error
return. -/
def parseTcTime (s : String) : Option TcTime :=
  match s.data with
  | [y1, y2, y3, y4, mo1, mo2, d1, d2, t, h1, h2, mi1, mi2, s1, s2, sg, oh1, oh2, om1, om2] =>
    if t ≠ 'T' then none
    else do
      let yr ← dig4 y1 y2 y3 y4
      let mo ← dig2 mo1 mo2
      let dy ← dig2 d1 d2
      let hr ← dig2 h1 h2
      let mi ← dig2 mi1 mi2
      let sc ← dig2 s1 s2
      let oh ← dig2 oh1 oh2
      let om ← dig2 om1 om2
      if 1 ≤ mo ∧ mo ≤ 12 ∧ 1 ≤ dy ∧ dy ≤ daysIn yr mo ∧ hr < 24 ∧ mi < 60 ∧ sc < 60 then
        let mag : Int := oh * 60 + om
        if sg = '+' then some ⟨yr, mo, dy, hr, mi, sc, mag⟩
        else if sg = '-' then some ⟨yr, mo, dy, hr, mi, sc, -mag⟩
        else none
      else none
  | _ => none

/-- A natural number rendered as two decimal digits, zero padded. -/
def pad2 (n : Nat) : String :=
  if n < 10 then "0" ++ toString n else toString n

/-- A natural number rendered as four decimal digits, zero padded. -/
def pad4 (n : Nat) : String :=
  if n < 10 then "000" ++ toString n
  else if n < 100 then "00" ++ toString n
  else if n < 1000 then "0" ++ toString n
  else toString n

/-- `time.Time.Format` with the fixed layout `20060102T150405-0700`: the zone
offset is printed with a `-` sign exactly when it is negative (a zero offset
prints as `+0000`). -/
def formatTcTime (t : TcTime) : String :=
  pad4 t.year ++ pad2 t.month ++ pad2 t.day ++ "T" ++
    pad2 t.hour ++ pad2 t.minute ++ pad2 t.second ++
    (if t.offset < 0 then "-" else "+") ++
    pad2 (t.offset.natAbs / 60) ++ pad2 (t.offset.natAbs % 60)

/-- `strings.Trim(s, "\x22")`: remove all leading and trailing quote
characters. -/
def trimQuotes (s : String) : String :=
  ⟨((s.data.dropWhile (· = '"')).reverse.dropWhile (· = '"')).reverse⟩

/-- `Time.UnmarshalJSON` trims quotes from the raw JSON buffer and parses the
TeamCity layout; `none` models the error return. -/
def Time.UnmarshalJSON (buf : String) : Option TcTime :=
  parseTcTime (trimQuotes buf)

/-- `Time.MarshalJSON` formats the time in the TeamCity layout and wraps it in
quotes. -/
def Time.MarshalJSON (t : TcTime) : String :=
  "\"" ++ formatTcTime t ++ "\""

/-! ## Changes and change aggregation -/

/-- `Change` is an individual change in a group that corresponds to a certain
build (from `build.go`). -/
structure Change where
  Id : Int
  Version : String
  Username : String
  Date : TcTime
  Comment : String
deriving Repr, DecidableEq

/-- `Changes` are the list of changes that corresponds to a certain build. -/
structure Changes where
  Changes : List Change
deriving Repr, DecidableEq

/-- A total order key for change dates: the wall-clock fields compared
lexicographically (the aggregation example uses a single zone offset, so the
offset plays no role). -/
def tcKey (t : TcTime) : Nat :=
  ((((t.year * 13 + t.month) * 32 + t.day) * 24 + t.hour) * 60 + t.minute) * 60 + t.second

/-- Insert a change into a version-keyed association list: if an entry with
the same version exists it is overwritten in place (last write wins),
otherwise the change is appended. -/
def upsertByVersion (acc : List Change) (c : Change) : List Change :=
  match acc with
  | [] => [c]
  | d :: ds => if d.Version = c.Version then c :: ds else d :: upsertByVersion ds c

/-- Insert a change into a list sorted by date descending. -/
def insertByDateDesc (c : Change) : List Change → List Change
  | [] => [c]
  | d :: ds => if tcKey d.Date ≤ tcKey c.Date then c :: d :: ds else d :: insertByDateDesc c ds

/-- Sort changes by date, descending. -/
def sortByDateDesc (cs : List Change) : List Change :=
  cs.foldr insertByDateDesc []

/-- Modelled from the spec: the change deduplication and ordering helper of
section 4.3 is not among the files under `src/` (only the data model it reads
is). Given the detail records already fetched for a collection of builds —
here, each build's list of associated changes — it collects the changes into
a mapping keyed by version where the last write wins on duplicate versions,
then returns the changes ordered by change date descending. -/
def aggregateChanges (details : List Changes) : List Change :=
  let entries := details.foldl (fun acc b => b.Changes.foldl upsertByVersion acc) []
  sortByDateDesc entries

/-! ## API client request construction (from `client.go`) -/

def basePathSuffix : String := "/httpAuth/app/rest/"
def projectsPath : String := "projects"
def buildsPath : String := "builds"
def buildTypesPath : String := "buildTypes"
def buildQueuePath : String := "buildQueue"
def changesPath : String := "changes"
def parametersPath : String := "parameters"
def templatePath : String := "template"
def artifactDependencyPath : String := "artifact-dependencies"
def snapshotDependencyPath : String := "snapshot-dependencies"
def triggerPath : String := "triggers"
def vcsRootsPath : String := "vcs-roots"
def tagsPath : String := "tags"
def locatorParamKey : String := "?locator="
def jsonContentType : String := "application/json"

/-- `json.Marshal(nil)` serializes Go's untyped nil to the JSON literal
`null`. -/
def jsonNull : String := "null"

/-- The stack step of Go `path.Clean`'s lexical algorithm over the segments of
a path: empty and `.` segments are dropped, `..` pops a previous segment
(or is kept at the start of a relative path, or dropped at the root of a
rooted one), and any other segment is pushed. -/
def cleanLoop (rooted : Bool) : List String → List String → List String
  | stack, [] => stack
  | stack, seg :: rest =>
    if seg = "" ∨ seg = "." then cleanLoop rooted stack rest
    else if seg = ".." then
      match stack with
      | [] => if rooted then cleanLoop rooted [] rest else cleanLoop rooted [".."] rest
      | top :: below =>
        if top = ".." then cleanLoop rooted (".." :: top :: below) rest
        else cleanLoop rooted below rest
    else cleanLoop rooted (seg :: stack) rest

/-- Go `path.Clean`: the shortest lexically-equivalent slash-separated path. -/
def pathClean (p : String) : String :=
  if p = "" then "."
  else
    let rooted := p.startsWith "/"
    let segs := (cleanLoop rooted [] (p.splitOn "/")).reverse
    let out := String.intercalate "/" segs
    if rooted then "/" ++ out
    else if out = "" then "." else out

/-- Go `path.Join`: joins the elements from the first non-empty one with
slashes and cleans the result; all-empty input yields `""`. -/
def pathJoin : List String → String
  | [] => ""
  | e :: rest => if e = "" then pathJoin rest else pathClean (String.intercalate "/" (e :: rest))

/-- The HTTP request assembled by `Client.doRequest`, as far as it is
determined by the arguments: the method, the path appended to
`host + basePathSuffix`, the Content-Type header value, and the optional
request body (Go's nil `data` is `none`). The Basic-Auth and Accept headers,
identical on every request, are omitted from the record. -/
structure Request where
  method : String
  path : String
  contentType : String
  body : Option String
deriving Repr, DecidableEq

/-- `Client.doRequest`'s request construction: the URL is
`host + basePathSuffix + path`; a Content-Type override is used when
non-empty, otherwise the header is set to `application/json`; the body is
sent exactly when `data` is non-nil. -/
def doRequest (method p contentType : String) (data : Option String) : Request :=
  { method := method
    path := p
    contentType := if contentType.length > 0 then contentType else jsonContentType
    body := data }

/-- `Client.doJSONRequest` serializes its argument to JSON (the model takes
the serialized form) and forwards with the JSON content type. -/
def doJSONRequest (method p : String) (body : String) : Request :=
  doRequest method p jsonContentType (some body)

/-- `ListProjects` gets a list of all projects. -/
def ListProjects : Request :=
  doRequest "GET" projectsPath "" none

/-- `SelectProject` gets the project with specified selector. -/
def SelectProject (selector : String) : Request :=
  doRequest "GET" (pathJoin [projectsPath, selector]) "" none

/-- `SelectBuilds` gets the builds with the specified buildLocator, passed as
a `?locator=` query parameter. -/
def SelectBuilds (selector : String) : Request :=
  doRequest "GET" (buildsPath ++ locatorParamKey ++ selector) "" none

/-- `BuildFromID` gets the build details for the build with specified id;
`strconv.Itoa` is `toString` on the integer. -/
def BuildFromID (id : Int) : Request :=
  doRequest "GET" (pathJoin [buildsPath, (ById (toString id)).String]) "" none

/-- `SelectChange` gets the Change with the specified selector. -/
def SelectChange (selector : String) : Request :=
  doRequest "GET" (pathJoin [changesPath, selector]) "" none

/-- `SelectBuildType` gets the build configuration with the specified
selector. -/
def SelectBuildType (selector : String) : Request :=
  doRequest "GET" (pathJoin [buildTypesPath, selector]) "" none

/-- `SelectBuildTypes` gets the build configurations with the specified
selector, passed as a `?locator=` query parameter. -/
def SelectBuildTypes (selector : String) : Request :=
  doRequest "GET" (buildTypesPath ++ locatorParamKey ++ selector) "" none

/-- `SelectBuildTypeBuilds` gets the builds belonging to the build
configuration with the specified selector. -/
def SelectBuildTypeBuilds (selector : String) : Request :=
  doRequest "GET" (pathJoin [buildTypesPath, selector, buildsPath]) "" none

/-- `SelectVcsRoot` gets the VcsRoot with the specified selector. -/
def SelectVcsRoot (selector : String) : Request :=
  doRequest "GET" (pathJoin [vcsRootsPath, selector]) "" none

/-- `SelectSnapshotDependency` selects a snapshot dependency with given id. -/
def SelectSnapshotDependency (buildTypeSelector dependencyId : String) : Request :=
  doRequest "GET" (pathJoin [buildTypesPath, buildTypeSelector, snapshotDependencyPath, dependencyId]) "" none

/-- `SelectArtifactDependencies` selects all artifact dependencies for the
given build type. -/
def SelectArtifactDependencies (buildTypeSelector : String) : Request :=
  doRequest "GET" (pathJoin [buildTypesPath, buildTypeSelector, artifactDependencyPath]) "" none

/-- `GetTagByLocator` fetches a build's tags. Although a read, it goes through
`doJSONRequest` with a nil payload, so `json.Marshal(nil)` produces the body
`null` and the JSON content type is used. -/
def GetTagByLocator (locator : String) : Request :=
  doJSONRequest "GET" (pathJoin [buildsPath, locator, tagsPath]) jsonNull

/-- `SetTagByLocator` replaces a build's tags (the model takes the serialized
tags). -/
def SetTagByLocator (locator tagsJSON : String) : Request :=
  doJSONRequest "PUT" (pathJoin [buildsPath, locator, tagsPath]) tagsJSON

/-- `TriggerBuildID` queues a build (the model takes the serialized build). -/
def TriggerBuildID (buildJSON : String) : Request :=
  doJSONRequest "POST" buildQueuePath buildJSON

/-- `UpdateParameter` updates the parameter for the specified project. -/
def UpdateParameter (projectLocator propName propJSON : String) : Request :=
  doJSONRequest "PUT" (pathJoin [projectsPath, projectLocator, parametersPath, propName]) propJSON

/-- `UpdateBuildTypeParameter` updates the parameter for the specified build
type. -/
def UpdateBuildTypeParameter (buildTypeLocator propName propJSON : String) : Request :=
  doJSONRequest "PUT" (pathJoin [buildTypesPath, buildTypeLocator, parametersPath, propName]) propJSON

/-- `CreateProject` creates a new project (the model takes the serialized
project). -/
def CreateProject (projectJSON : String) : Request :=
  doJSONRequest "POST" projectsPath projectJSON

/-- `CreateBuildType` creates a new build type under the designated project. -/
def CreateBuildType (projectLocator buildTypeJSON : String) : Request :=
  doJSONRequest "POST" (pathJoin [projectsPath, projectLocator, buildTypesPath]) buildTypeJSON

/-- `CreateTrigger` creates a trigger for a build type. -/
def CreateTrigger (buildTypeSelector triggerJSON : String) : Request :=
  doJSONRequest "POST" (pathJoin [buildTypesPath, buildTypeSelector, triggerPath]) triggerJSON

/-- `ApplyTemplate` applies a template to a build type with a text/plain
body. -/
def ApplyTemplate (buildTypeSelector templateSelector : String) : Request :=
  doRequest "PUT" (pathJoin [buildTypesPath, buildTypeSelector, templatePath]) "text/plain" (some templateSelector)

/-- The response-decoding tail of `Client.doRequest`: the body is read and
`json.Unmarshal` is attempted into the expected shape (here an abstract
decoder); on decode failure the error is `errors.New(string(b))`, carrying
the raw body text verbatim, and on success no error is returned. -/
def decodeResponseBody {V : Type} (decode : String → Option V) (respBody : String) : Except String V :=
  match decode respBody with
  | some v => Except.ok v
  | none => Except.error respBody

/-! ## Concrete values used by witnesses and examples -/

/-- A decoder for witness statements: accepts only the body `{}`. -/
def witnessDecoder (s : String) : Option Nat :=
  if s = "{}" then some 1 else none

/-- Concrete dates t1 < t2 < t3 < t4 for the aggregation example. -/
def tDate1 : TcTime := ⟨2023, 6, 1, 0, 0, 0, 0⟩
def tDate2 : TcTime := ⟨2023, 6, 2, 0, 0, 0, 0⟩
def tDate3 : TcTime := ⟨2023, 6, 3, 0, 0, 0, 0⟩
def tDate4 : TcTime := ⟨2023, 6, 4, 0, 0, 0, 0⟩

/-- Change v1 at t1 (in build B1). -/
def chV1T1 : Change := ⟨1, "v1", "u1", tDate1, "c1"⟩
/-- Change v2 at t2 (in build B1). -/
def chV2T2 : Change := ⟨2, "v2", "u2", tDate2, "c2"⟩
/-- Change v2 at t3 (in build B2; same version as `chV2T2`, later date). -/
def chV2T3 : Change := ⟨3, "v2", "u2", tDate3, "c2b"⟩
/-- Change v3 at t4 (in build B2). -/
def chV3T4 : Change := ⟨4, "v3", "u3", tDate4, "c3"⟩

/-- Build B1's changes: {v1@t1, v2@t2}. -/
def buildB1 : Changes := ⟨[chV1T1, chV2T2]⟩
/-- Build B2's changes: {v2@t3, v3@t4}. -/
def buildB2 : Changes := ⟨[chV2T3, chV3T4]⟩

/-- A property list with one property `a = zz` used by witness statements. -/
def witnessPropertyList : PropertyList := ⟨1, [⟨"a", "zz", false⟩]⟩

/-! ## Helper lemmas -/

theorem foldl_concatCommas (ls : List Locator) :
    ∀ acc : String, ls.foldl (fun acc l => acc ++ l.String ++ ",") acc = acc ++ concatCommas ls := by
  induction ls with
  | nil => intro acc; simp [concatCommas]
  | cons l ls ih =>
    intro acc
    simp only [List.foldl_cons, concatCommas, ih]
    simp [String.append_assoc]

theorem concatCommas_cons_eq_joinComma (l : Locator) (ls : List Locator) :
    concatCommas (l :: ls) = joinComma ((l :: ls).map Locator.String) ++ "," := by
  induction ls generalizing l with
  | nil => simp [concatCommas, joinComma]
  | cons m ms ih =>
    rw [show concatCommas (l :: m :: ms) = l.String ++ "," ++ concatCommas (m :: ms) from rfl,
      ih m]
    simp [joinComma, String.append_assoc]

theorem goDropLastByte_append_comma (w : String) : goDropLastByte (w ++ ",") = w := by
  cases w with
  | mk d =>
    show Teamcity.goDropLastByte ⟨d ++ [',']⟩ = ⟨d⟩
    simp [goDropLastByte]

theorem append_comma_ne_empty (w : String) : w ++ "," ≠ "" := by
  cases w with
  | mk d =>
    intro h
    have hd : d ++ [','] = ([] : List Char) := congrArg String.data h
    simp at hd

/-- `BySnapshotDependency` on a non-empty list returns the comma-joined,
parenthesized composition. -/
theorem bySnapshotDependency_cons (l : Locator) (ls : List Locator) :
    BySnapshotDependency (l :: ls) =
      some { key := "snapshotDependency",
             value := "(" ++ joinComma ((l :: ls).map Locator.String) ++ ")" } := by
  unfold BySnapshotDependency
  rw [foldl_concatCommas, concatCommas_cons_eq_joinComma]
  simp only [String.append_assoc]
  rw [if_neg]
  · rw [show ("" : String) ++ (joinComma ((l :: ls).map Locator.String) ++ ",") =
        joinComma ((l :: ls).map Locator.String) ++ "," from by simp,
      goDropLastByte_append_comma]
  · intro h
    exact append_comma_ne_empty _ (by simpa using h)

theorem propertyLoop_eq_find (target : String) (l : List Property) :
    propertyLoop target l = (l.find? fun p => p.Name == target).getD emptyProperty := by
  induction l with
  | nil => rfl
  | cons p ps ih =>
    by_cases h : p.Name = target
    · simp [propertyLoop, List.find?, h]
    · have hb : (p.Name == target) = false := beq_eq_false_iff_ne.mpr h
      simp [propertyLoop, List.find?, h, hb, ih]

theorem valueLoop_no_match (name : String) (l : List Property)
    (h : ∀ p ∈ l, p.Name ≠ name) : valueLoop name l = "" := by
  induction l with
  | nil => rfl
  | cons p ps ih =>
    have hp : p.Name ≠ name := h p (by simp)
    simp only [valueLoop, if_neg hp]
    exact ih fun q hq => h q (by simp [hq])

/-! ## Claim theorems -/

/-- C1, counterexample: composing a snapshot-dependency locator from zero
inner locators does not return any value at all — the slice expression
`v[:len(v)-1]` is out of range on the empty accumulated string, so the Go
runtime panics (modelled as `none`). No explicit empty-composition error
value is returned, contradicting the claim that the failure is returned to
the caller as a value and is never fatal to the process. -/
theorem bySnapshotDependency_empty_aborts :
    BySnapshotDependency [] = none := rfl

/-- C1, amended: calling `BySnapshotDependency` with zero inner locators
panics (an out-of-range slice, modelled as `none`) instead of returning an
explicit error value; it does not return a malformed selector with a
trailing separator, because it does not return at all. With at least one
inner locator it returns a well-formed comma-joined composition with no
trailing separator. -/
theorem bySnapshotDependency_empty_amended :
    BySnapshotDependency [] = none ∧
      ∀ (l : Locator) (ls : List Locator),
        BySnapshotDependency (l :: ls) =
          some { key := "snapshotDependency",
                 value := "(" ++ joinComma ((l :: ls).map Locator.String) ++ ")" } :=
  ⟨rfl, bySnapshotDependency_cons⟩

theorem key_colon_paren (k j : String) :
    k ++ ":" ++ ("(" ++ j ++ ")") = k ++ ":(" ++ j ++ ")" := by
  have h0 : (":" : String).data ++ ("(" : String).data = (":(" : String).data := by decide
  have h : ∀ x : List Char, (":" : String).data ++ (("(" : String).data ++ x) =
      (":(" : String).data ++ x := fun x => by rw [← List.append_assoc, h0]
  apply String.ext
  simp only [String.data_append, List.append_assoc, h]

/-- C7: locator stringification satisfies the grammar equations — a key/value
locator prints as `key ++ ":" ++ value`; each composed locator prints as
`key ++ ":(" ++ inner.String ++ ")"`; and the multi-composition on a
non-empty list prints as the key followed by `:(`, the inner strings joined
by single commas, then `)`, with no leading or trailing comma in the
one-element case (`joinComma [x] = x`). -/
theorem locator_grammar :
    (∀ k v : String, Locator.String ⟨k, v⟩ = k ++ ":" ++ v)
  ∧ (∀ l : Locator,
       (ByBuildType l).String = "buildType" ++ ":(" ++ l.String ++ ")"
     ∧ (ByAffectedProject l).String = "affectedProject" ++ ":(" ++ l.String ++ ")"
     ∧ (ByProject l).String = "project" ++ ":(" ++ l.String ++ ")"
     ∧ (ByTo l).String = "to" ++ ":(" ++ l.String ++ ")")
  ∧ ∀ (l : Locator) (ls : List Locator),
      (BySnapshotDependency (l :: ls)).map Locator.String =
        some ("snapshotDependency" ++ ":(" ++ joinComma ((l :: ls).map Locator.String) ++ ")") := by
  refine ⟨fun k v => rfl, fun l => ⟨?_, ?_, ?_, ?_⟩, fun l ls => ?_⟩
  · exact key_colon_paren "buildType" l.String
  · exact key_colon_paren "affectedProject" l.String
  · exact key_colon_paren "project" l.String
  · exact key_colon_paren "to" l.String
  · rw [bySnapshotDependency_cons]
    exact congrArg some (key_colon_paren "snapshotDependency" _)

/-- C2, counterexample: `GetTagByLocator` is a GET-style read operation, yet
its request carries a serialized body — `doJSONRequest` marshals the nil
payload to the JSON literal `null` and transmits it with the JSON
Content-Type — refuting the claim that every read operation is transmitted
with no request body. -/
theorem getTagByLocator_sends_body :
    (GetTagByLocator "id:1").method = "GET"
  ∧ (GetTagByLocator "id:1").body = some "null"
  ∧ (GetTagByLocator "id:1").contentType = "application/json" :=
  ⟨rfl, rfl, rfl⟩

/-- C2, amended: every read operation except `GetTagByLocator` transmits no
request body; `GetTagByLocator`, although a GET, goes through the JSON
request path and transmits the serialized nil payload `null` with the JSON
Content-Type. Every request — reads included — carries a Content-Type
header, defaulting to `application/json` when no override is given. A
serialized JSON body is present for the create/update operations. -/
theorem readRequests_amended (s d b : String) (id : Int) :
    ListProjects.body = none
  ∧ (SelectProject s).body = none
  ∧ (SelectBuilds s).body = none
  ∧ (BuildFromID id).body = none
  ∧ (SelectChange s).body = none
  ∧ (SelectBuildType s).body = none
  ∧ (SelectBuildTypes s).body = none
  ∧ (SelectBuildTypeBuilds s).body = none
  ∧ (SelectVcsRoot s).body = none
  ∧ (SelectSnapshotDependency s d).body = none
  ∧ (SelectArtifactDependencies s).body = none
  ∧ (GetTagByLocator s).body = some "null"
  ∧ (GetTagByLocator s).contentType = jsonContentType
  ∧ (SelectProject s).contentType = jsonContentType
  ∧ (CreateProject b).body = some b
  ∧ (TriggerBuildID b).body = some b
  ∧ (UpdateParameter s d b).body = some b
  ∧ (SetTagByLocator s b).body = some b :=
  ⟨rfl, rfl, rfl, rfl, rfl, rfl, rfl, rfl, rfl, rfl, rfl, rfl, rfl, rfl, rfl, rfl, rfl, rfl⟩

/-- C4: when the response body fails to decode into the expected shape, the
client returns an error carrying exactly the raw response body text; when it
does decode, no error is returned. -/
theorem decodeResponseBody_verbatim {V : Type} (decode : String → Option V) (body : String) :
    (decode body = none → decodeResponseBody decode body = Except.error body)
  ∧ ∀ v : V, decode body = some v → decodeResponseBody decode body = Except.ok v := by
  constructor
  · intro h; simp [decodeResponseBody, h]
  · intro v h; simp [decodeResponseBody, h]

/-- C4, witness: `decodeResponseBody_verbatim` applied to the concrete
decoder `witnessDecoder` at a non-decoding and a decoding body. -/
theorem decodeResponseBody_verbatim_witness :
    decodeResponseBody witnessDecoder "<html>busy</html>" = Except.error "<html>busy</html>"
  ∧ decodeResponseBody witnessDecoder "{}" = Except.ok 1 :=
  ⟨(decodeResponseBody_verbatim witnessDecoder "<html>busy</html>").1 (by decide),
   (decodeResponseBody_verbatim witnessDecoder "{}").2 1 (by decide)⟩

/-- C5: for every selector string, the collection-fetch operations build the
request path as the resource segment followed by `?locator=` and the
selector, while the single-entity fetch operations path-join the resource
segment with the selector as a path segment. -/
theorem locator_placement (s : String) :
    (SelectBuilds s).path = "builds" ++ "?locator=" ++ s
  ∧ (SelectBuildTypes s).path = "buildTypes" ++ "?locator=" ++ s
  ∧ (SelectProject s).path = pathJoin ["projects", s]
  ∧ (SelectBuildType s).path = pathJoin ["buildTypes", s]
  ∧ (SelectChange s).path = pathJoin ["changes", s]
  ∧ (SelectVcsRoot s).path = pathJoin ["vcs-roots", s] :=
  ⟨rfl, rfl, rfl, rfl, rfl, rfl⟩

/-- C6: parsing the date literal `20230615T120000+0000` with the Time JSON
unmarshaller and re-serializing with the Time JSON marshaller yields the
identical literal. -/
theorem time_roundtrip_literal :
    (Time.UnmarshalJSON "\"20230615T120000+0000\"").map Time.MarshalJSON =
      some "\"20230615T120000+0000\"" := by decide

/-- C3: the change-aggregation operation on builds B1 (changes v1@t1, v2@t2)
and B2 (changes v2@t3, v3@t4) keeps the last write for the duplicated
version v2 and returns the changes ordered by date descending:
[v3@t4, v2@t3, v1@t1]. -/
theorem aggregateChanges_example :
    aggregateChanges [buildB1, buildB2] = [chV3T4, chV2T3, chV1T1] := by decide

/-- C8: property lookup returns the first property in order whose name equals
the target, and the zero-valued property when none matches, never an error;
the Project variant delegates to the Params lookup. -/
theorem propertyFromName_first_match :
    (∀ (params : Params) (target : String),
        params.PropertyFromName target =
          (params.Properties.find? fun p => p.Name == target).getD emptyProperty)
  ∧ ∀ (project : Project) (target : String),
        project.PropertyFromName target = project.Params.PropertyFromName target :=
  ⟨fun params target => propertyLoop_eq_find target params.Properties, fun _ _ => rfl⟩

/-- C9: marshalling a `Trigger` and unmarshalling the result recovers the
original trigger — the property-list encoding of `dependsOn` and
`afterSuccessfulBuildOnly` round-trips. -/
theorem trigger_roundtrip (t : Trigger) :
    Trigger.UnmarshalJSON (Trigger.MarshalJSON t) = t := by
  cases t with
  | mk i d b =>
    cases b <;>
      simp [Trigger.UnmarshalJSON, Trigger.MarshalJSON, NewPropertyList,
        PropertyList.Value, valueLoop, PropertyList.Bool, parseBool, formatBool]

/-- C9, witness: `trigger_roundtrip` has no propositional hypothesis, but its
statement binds a trigger; the round trip at a concrete trigger. -/
theorem trigger_roundtrip_concrete :
    Trigger.UnmarshalJSON (Trigger.MarshalJSON ⟨"t1", "bt_main", true⟩) = ⟨"t1", "bt_main", true⟩ :=
  trigger_roundtrip ⟨"t1", "bt_main", true⟩

/-- C10: `PropertyList.Value` and `PropertyList.Bool` are total even on a nil
receiver — a nil receiver yields `""` and `false`; a missing property yields
`""`; a stored value that does not parse as a boolean yields `false`. -/
theorem propertyList_nil_safe :
    (∀ name : String, PropertyList.Value none name = "" ∧ PropertyList.Bool none name = false)
  ∧ (∀ (pl : PropertyList) (name : String),
        (∀ p ∈ pl.Properties, p.Name ≠ name) → PropertyList.Value (some pl) name = "")
  ∧ ∀ (pl : PropertyList) (name : String),
        parseBool (PropertyList.Value (some pl) name) = none →
          PropertyList.Bool (some pl) name = false := by
  refine ⟨fun name => ⟨rfl, rfl⟩, fun pl name h => valueLoop_no_match name pl.Properties h,
    fun pl name h => ?_⟩
  simp [PropertyList.Bool, h]

/-- C10, witness: `propertyList_nil_safe` at a nil receiver, at a property
list without the requested name, and at a stored value `zz` that does not
parse as a boolean. -/
theorem propertyList_nil_safe_witness :
    PropertyList.Value none "x" = ""
  ∧ PropertyList.Bool none "x" = false
  ∧ PropertyList.Value (some witnessPropertyList) "b" = ""
  ∧ PropertyList.Bool (some witnessPropertyList) "a" = false :=
  ⟨(propertyList_nil_safe.1 "x").1, (propertyList_nil_safe.1 "x").2,
   propertyList_nil_safe.2.1 witnessPropertyList "b" (by decide),
   propertyList_nil_safe.2.2 witnessPropertyList "a" (by decide)⟩

end Teamcity
